import Mathlib

/-!
Verification of the Mk.03 civilization-simulator engine (Rust) against its
natural-language specification.

The Rust source is shallowly embedded: `f32`/`f64` arithmetic is idealized as
exact rational arithmetic (`ℚ`), `u64`/`u32` counters as `ℕ` (Rust
`saturating_sub` becomes truncated `Nat` subtraction, `as u64` casts on
non-negative floats become `Int.toNat ∘ Int.floor`), and every call to the
`rand` library (an external crate, not part of this repository) is modelled as
an explicit oracle parameter so that theorems quantify over every possible
random outcome.  Where a concrete counterexample is computed, the chosen
numbers are far from any float rounding boundary, so the rational idealization
and the `f32` execution agree on the stated (in)equality.
-/

namespace CivSim

/-- Rust `f32::clamp(lo, hi)` (also `.max(lo).min(hi)`). -/
def clampQ (x lo hi : ℚ) : ℚ := min (max x lo) hi

/-- Rust `as u64` / `as u32` cast of a (non-negative) float: truncation toward
zero, saturating at 0 for negative inputs. -/
def toU64 (q : ℚ) : ℕ := (⌊q⌋).toNat

/-- Rust `f32::round` followed by an unsigned cast (demography flows). -/
def roundU64 (q : ℚ) : ℕ := (round q).toNat

/-- The five fixed nations (src/simulation/nation.rs). -/
inductive Nation
  | Tera
  | Sora
  | Aqua
  | Solar
  | Luna
deriving DecidableEq, Repr

/-- Technology eras (src/simulation/technology.rs). -/
inductive Era
  | Dawn
  | Ancient
  | Classical
  | Medieval
  | Industrial
  | Modern
  | Nuclear
deriving DecidableEq, Repr

/-- Weapon tiers (src/simulation/technology.rs). -/
inductive WeaponTier
  | KnappedStone
  | PolishedStone
  | Bow
  | Crossbow
  | Gunpowder
  | SteelArmor
  | ModernArmor
  | NuclearArsenal
deriving DecidableEq, Repr

/-- `WeaponTier::combat_multiplier` (src/simulation/technology.rs). -/
def WeaponTier.combat_multiplier : WeaponTier → ℚ
  | .KnappedStone => 3/4
  | .PolishedStone => 9/10
  | .Bow => 1
  | .Crossbow => 11/10
  | .Gunpowder => 5/4
  | .SteelArmor => 27/20
  | .ModernArmor => 31/20
  | .NuclearArsenal => 9/5

/-- Techs (src/simulation/technology.rs); payload-irrelevant to the claims. -/
inductive Tech
  | Knapping
  | PolishedTools
  | Archery
  | Siegecraft
  | Metallurgy
  | GunpowderChemistry
  | Ballistics
  | NuclearPhysics
deriving DecidableEq, Repr

/-- `NationMetrics` (src/simulation/resources.rs). -/
structure NationMetrics where
  economy : ℚ
  science : ℚ
  culture : ℚ
  diplomacy : ℚ
  religion : ℚ
  military : ℚ
  territory : ℚ
  is_destroyed : Bool
  era : Era
  weapon_tier : WeaponTier
  unlocked_techs : List Tech
  research_stock : ℚ
  culture_stock : ℚ
  population : ℕ
  youth : ℕ
  adult : ℕ
  elder : ℕ
  productivity : ℚ
  unemployment : ℚ
deriving Repr, DecidableEq

/-- `Default for NationMetrics` (src/simulation/resources.rs). -/
def NationMetrics.default : NationMetrics where
  economy := 50
  science := 20
  culture := 30
  diplomacy := 30
  religion := 25
  military := 20
  territory := 3333/100
  is_destroyed := false
  era := .Dawn
  weapon_tier := .KnappedStone
  unlocked_techs := [.Knapping]
  research_stock := 0
  culture_stock := 0
  population := 3000000
  youth := 900000
  adult := 1800000
  elder := 300000
  productivity := 1
  unemployment := 6

/-- `NationCivState` (src/simulation/resources.rs). -/
structure NationCivState where
  cities : ℕ
  happiness : ℚ
  stability : ℚ
  production : ℚ
deriving Repr, DecidableEq

/-- `Default for NationCivState` (src/simulation/resources.rs). -/
def NationCivState.default : NationCivState where
  cities := 2
  happiness := 65
  stability := 60
  production := 40

/-! ## Warfare system (src/simulation/systems/warfare.rs)

Battle resolution after the winner has been decided by the two military
rolls.  `nuclear_a`/`nuclear_b` in the source test the weapon tiers of the
two combatants of the request, which as a set are exactly the winner and the
loser, so the model carries the winner's and loser's metrics.  The `rand`
draws are oracle inputs.
-/

/-- `apply_war_science_penalty` (src/simulation/systems/warfare.rs). -/
def apply_war_science_penalty (m : NationMetrics) (casualties : ℕ) : NationMetrics :=
  if m.population = 0 then m
  else
    let population_before : ℚ := max m.population 1
    let casualty_ratio := clampQ ((casualties : ℚ) / population_before) 0 (3/4)
    let science_loss := m.science * casualty_ratio * (3/5) + casualty_ratio * 12
    let science := max (m.science - science_loss) 0
    let research_stock := m.research_stock * clampQ (1 - casualty_ratio * (13/20)) 0 1
    let econ_loss := m.economy * casualty_ratio * (9/20) + casualty_ratio * 8
    let economy := max (m.economy - econ_loss) 0
    let culture := max (m.culture - casualty_ratio * 6) 0
    { m with science := science, research_stock := research_stock,
             economy := economy, culture := culture }

/-- Oracle values for the `rand` draws made while resolving one battle. -/
structure BattleRng where
  /-- `rng.gen_range(6000.0..12000.0)` scaling the casualty base. -/
  casRoll : ℚ
  /-- `rng.gen_bool(nuke_probability)`: whether a nuclear-capable battle escalates. -/
  escalate : Bool
  /-- `rng.gen_range(200..1001)` or `rng.gen_range(3..13)`: strike count. -/
  nukeCount : ℕ
  /-- `rng.gen_bool(0.8)` mutual-retaliation draw. -/
  mutualRoll : Bool

/-- Result of resolving one battle. -/
structure BattleOutcome where
  winner : NationMetrics
  loser : NationMetrics
  loserCiv : NationCivState
  total_casualties : ℕ
  winner_casualties : ℕ
  loser_casualties : ℕ
  nuclear : Bool
deriving Repr

/-- Battle resolution (src/simulation/systems/warfare.rs, the body of the
per-request loop of `warfare_system` after the winner is decided). -/
def resolveBattle (tick : ℕ) (rng : BattleRng)
    (winnerM loserM : NationMetrics) (loserCiv : NationCivState) : BattleOutcome :=
  let territory_change : ℚ := 1/2
  let military_loss : ℚ := 2
  let base_force := max (winnerM.military + loserM.military) 1
  let raw_casualties := toU64 (base_force * rng.casRoll)
  let nuclear_a : Bool := winnerM.weapon_tier = WeaponTier.NuclearArsenal
  let nuclear_b : Bool := loserM.weapon_tier = WeaponTier.NuclearArsenal
  let nuclear : Bool := (nuclear_a || nuclear_b) && rng.escalate
  let raw_casualties :=
    if nuclear then
      let isMutual : Bool := nuclear_a && nuclear_b && rng.mutualRoll
      let multiplier : ℚ :=
        if isMutual then 5 * rng.nukeCount else 5 * ((rng.nukeCount : ℚ) * (1/2))
      toU64 ((raw_casualties : ℚ) * multiplier)
    else raw_casualties
  let total_casualties := min (max raw_casualties 15000) 2000000
  let winner_casualties := toU64 ((total_casualties : ℚ) * (7/20))
  let loser_casualties := total_casualties - winner_casualties
  let w := winnerM
  let w := { w with territory := w.territory + territory_change,
                    military := w.military - military_loss }
  let w := { w with territory := max w.territory 0, military := max w.military 0 }
  let w := apply_war_science_penalty w winner_casualties
  let w := { w with population := w.population - winner_casualties }
  let w := { w with diplomacy := min (w.diplomacy + territory_change * (4/5)) 100,
                    culture := min (w.culture + 3/5) 100 }
  let l := loserM
  let l := { l with territory := l.territory - territory_change,
                    military := l.military - military_loss }
  let l := { l with territory := max l.territory 0, military := max l.military 0 }
  let l := apply_war_science_penalty l loser_casualties
  let l := { l with population := l.population - loser_casualties }
  let lFinal :=
    if l.territory ≤ 0 then { l with is_destroyed := true, population := 0 } else l
  let lcFinal :=
    if l.territory ≤ 0 then
      { loserCiv with cities := 0, production := 0, happiness := 0, stability := 0 }
    else loserCiv
  { winner := w, loser := lFinal, loserCiv := lcFinal,
    total_casualties := total_casualties,
    winner_casualties := winner_casualties,
    loser_casualties := loser_casualties,
    nuclear := nuclear }

/-! ## Per-nation tick projection for the population / destruction invariants

The tick runs two chained system sets and then the extinction check
(src/simulation/mod.rs).  Of all scheduled systems, exactly these write any
of `population`, `youth`/`adult`/`elder`, `is_destroyed` or `cities`:
`civilization_system`, `warfare_system`, `climate_impact_system`,
`demography_system`, `event_generation_system` and `extinction_system`
(checked over every file in src/simulation/systems/; `supply_impact_system`
would also write `population` but is not in the schedule).  Only
`demography_system` writes the three age cohorts, and only `warfare_system`
writes `is_destroyed`.  The functions below embed those systems' per-nation
updates; every cross-nation, climate or random input is an oracle parameter,
so theorems quantify over all of them.  `environment_system`'s seasonal pass
is included too because it mutates other metric fields of every nation
unconditionally.
-/

/-- Seasonal civ-state pulse of `environment_system`
(src/simulation/systems/environment.rs). -/
def environment_civ_step (morale_shift yield_shift risk_shift : ℚ)
    (s : NationCivState) : NationCivState :=
  { s with happiness := clampQ (s.happiness + morale_shift * (1/10)) 0 120,
           production := clampQ (s.production + yield_shift * (1/10)) 0 150,
           stability := clampQ (s.stability - risk_shift * (1/20)) 0 120 }

/-- Seasonal nation-metrics pulse of `environment_system`. -/
def environment_metrics_step (morale_shift yield_shift risk_shift : ℚ)
    (m : NationMetrics) : NationMetrics :=
  { m with economy := clampQ (m.economy + yield_shift * (3/20)) 0 200,
           culture := clampQ (m.culture + morale_shift * (1/10)) 0 200,
           military := clampQ (m.military - risk_shift * (1/10)) 0 200 }

/-- Per-nation body of `civilization_system`
(src/simulation/systems/civilization.rs).  `founded` is the oracle for the
`rng.gen_bool(chance)` city-founding draw. -/
def civilization_system_step (founded : Bool) (m : NationMetrics)
    (civ : NationCivState) : NationMetrics × NationCivState :=
  if m.is_destroyed then
    ({ m with population := 0 },
     { civ with cities := 0, production := 0, happiness := 0, stability := 0 })
  else
    let growth := civ.cities * 5000 + toU64 ((m.population : ℚ) * (5/10000))
    let m := { m with population := m.population + growth }
    let prod := max civ.production 0
    let m := { m with economy := clampQ (m.economy + prod * (3/20)) 0 120,
                      science := clampQ (m.science + prod * (3/25)) 0 120,
                      culture := clampQ (m.culture + prod * (1/10)) 0 120 }
    let mc :=
      if civ.happiness < 40 then
        ({ m with economy := m.economy * (199/200) },
         { civ with stability := civ.stability - 1/5 })
      else if 75 < civ.happiness then
        ({ m with economy := m.economy * (1003/1000) },
         { civ with stability := civ.stability + 3/20 })
      else (m, civ)
    let m := mc.1
    let civ := mc.2
    let civ := { civ with happiness := clampQ civ.happiness 0 100,
                          stability := clampQ civ.stability 0 100 }
    let max_cities := (⌈m.territory / 8⌉).toNat + 1
    let mc :=
      if civ.cities < max_cities ∧ founded = true then
        ({ m with population := m.population + 120000 },
         { civ with cities := civ.cities + 1, production := civ.production + 3,
                    happiness := civ.happiness + 2 })
      else (m, civ)
    let m := mc.1
    let civ := mc.2
    let civ := { civ with happiness := clampQ (civ.happiness + 1/20) 0 100 }
    (m, civ)

/-- One battle's effect on a single participating nation, projected from the
battle-processing loop of `warfare_system`; `casualties` is this side's share
(the winner's 35% cut or the loser's remainder). -/
def battleRole (isWinner : Bool) (casualties : ℕ) (m : NationMetrics)
    (civ : NationCivState) : NationMetrics × NationCivState :=
  if isWinner then
    let w := { m with territory := m.territory + 1/2, military := m.military - 2 }
    let w := { w with territory := max w.territory 0, military := max w.military 0 }
    let w := apply_war_science_penalty w casualties
    let w := { w with population := w.population - casualties }
    let w := { w with diplomacy := min (w.diplomacy + (1/2) * (4/5)) 100,
                      culture := min (w.culture + 3/5) 100 }
    (w, civ)
  else
    let l := { m with territory := m.territory - 1/2, military := m.military - 2 }
    let l := { l with territory := max l.territory 0, military := max l.military 0 }
    let l := apply_war_science_penalty l casualties
    let l := { l with population := l.population - casualties }
    if l.territory ≤ 0 then
      ({ l with is_destroyed := true, population := 0 },
       { civ with cities := 0, production := 0, happiness := 0, stability := 0 })
    else (l, civ)

/-- All battles a nation takes part in during one `warfare_system` run. -/
def warfareStep (battles : List (Bool × ℕ))
    (mc : NationMetrics × NationCivState) : NationMetrics × NationCivState :=
  battles.foldl (fun mc b => battleRole b.1 b.2 mc.1 mc.2) mc

/-- Per-nation body of `climate_impact_system`
(src/simulation/systems/environment.rs). -/
def climate_impact_step (risk biodiversity sea ice : ℚ) (m : NationMetrics)
    (civ : NationCivState) : NationMetrics × NationCivState :=
  if m.is_destroyed then (m, civ)
  else
    let land_loss_factor := clampQ (sea * (4/5) + (1 - ice) * (1/5)) 0 1
    let habitability := clampQ (1 - land_loss_factor) 0 1
    let penalty := min (risk * (2/25)) 25
    let m := { m with economy := max (m.economy - penalty) 0 }
    let m := { m with territory := max (m.territory * (49/50 - sea * (1/4))) 5 }
    let m := { m with economy := m.economy * max (99/100 - sea * (3/20)) (3/5) }
    let m := { m with military := m.military * max (199/200 - land_loss_factor * (3/20)) (1/2) }
    let pop2 := toU64 (max ((m.population : ℚ) * (999/1000 - land_loss_factor * (2/25))) 10000)
    let m := { m with population := pop2 }
    let science_penalty := penalty * (2/5)
    let m := { m with science := max (m.science - science_penalty) 0 }
    let m := if 30 < biodiversity then
        { m with research_stock := m.research_stock + biodiversity * (1/50) }
      else m
    let m := if biodiversity < 40 then
        { m with culture := max (m.culture - 3/5) 0,
                 diplomacy := max (m.diplomacy - 2/5) 0 }
      else m
    let m := if 4/5 < habitability ∧ risk < 25 then
        { m with economy := min (m.economy + 4/5) 220,
                 territory := min (m.territory + 1/5) 120 }
      else m
    let civ := { civ with
      happiness := clampQ
        (civ.happiness - risk * (1/25) - land_loss_factor * 12 + habitability * 4) 5 130,
      production := clampQ
        (civ.production * (199/200 - sea * (2/25)) + habitability * (6/5)) 0 160,
      stability := clampQ (civ.stability - risk * (3/100) - land_loss_factor * 8) 0 140 }
    (m, civ)

/-- Per-nation body of `demography_system`
(src/simulation/systems/demography.rs).  `cycle` is the idealized
`(tick.sin() + 1) * 0.5` business-cycle proxy. -/
def demography_system_step (cycle climate_risk : ℚ) (m : NationMetrics) :
    NationMetrics :=
  if m.is_destroyed then m
  else
    let climate_drag := min (climate_risk * (3/1000)) (1/4)
    let births := roundU64 ((m.adult : ℚ) * (8/10000))
    let aging_youth := roundU64 ((m.youth : ℚ) * (15/10000))
    let aging_adult := roundU64 ((m.adult : ℚ) * (9/10000))
    let elder_mortality := roundU64 ((m.elder : ℚ) * (25/10000))
    let youth := m.youth + births - aging_youth
    let adult := m.adult + aging_youth - aging_adult
    let elder := m.elder + aging_adult - elder_mortality
    let population := youth + adult + elder
    let productivity := max (1 + cycle * (1/5) - climate_drag) (2/5)
    let unemployment := min (6 + (1 - cycle) * 5 + climate_drag * 10) 40
    let effective_workers := (adult : ℚ) * (1 - unemployment / 100)
    let economy := m.economy + effective_workers / 1000000 * productivity * (4/5)
    let science := m.science + (elder : ℚ) / 1000000 * (3/10) * productivity
    let culture := m.culture + (elder : ℚ) / 1000000 * (2/5)
    { m with youth := youth, adult := adult, elder := elder,
             population := population, productivity := productivity,
             unemployment := unemployment, economy := min economy 250,
             science := min science 250, culture := min culture 250 }

/-- The three population-reducing pulses of `event_generation_system`
(src/simulation/systems/events.rs), per nation: `plague_per` is the
per-nation share of a plague macro-shock, `catastrophe` and `omega` the
severity draws of the global die-off pulses (`none` when a pulse does not
fire this tick). -/
def event_population_step (plague_per : Option ℕ) (catastrophe omega : Option ℚ)
    (m : NationMetrics) : NationMetrics :=
  let m := match plague_per with
    | some per => if m.is_destroyed then m else { m with population := m.population - per }
    | none => m
  let m := match catastrophe with
    | some severity =>
        if m.is_destroyed then m
        else
          let loss := toU64 ((m.population : ℚ) * severity)
          { m with population := max (m.population - loss) 10000 }
    | none => m
  match omega with
    | some severity =>
        if m.is_destroyed then m
        else
          let loss := toU64 ((m.population : ℚ) * severity)
          { m with population := max (m.population - loss) 1000 }
    | none => m

/-- Extinction trigger condition (src/simulation/systems/cosmic.rs). -/
def extinction_trigger (climate_risk biodiversity cosmic_age_years : ℚ) : Bool :=
  (decide (95 < climate_risk) || decide (biodiversity < 1)) ||
    (decide ((5000000000 : ℚ) < cosmic_age_years) &&
      decide (toU64 cosmic_age_years % 1000000000 = 0))

/-- Severity factor of `extinction_system` (src/simulation/systems/cosmic.rs). -/
def extinction_severity (timescale_years_per_tick cosmic_age_years : ℚ) : ℚ :=
  let timescale_factor := clampQ (timescale_years_per_tick / 1000000) (1/10) 100
  let age_factor := clampQ (cosmic_age_years / 1000000000 / 5) (1/2) 2
  1 / timescale_factor * age_factor

/-- Per-nation metrics reset of `extinction_system` (skips destroyed nations). -/
def extinction_metrics_step (severity : ℚ) (m : NationMetrics) : NationMetrics :=
  if m.is_destroyed then m
  else
    { m with
      population := toU64 ((m.population : ℚ) * min (1/5 * severity) (3/5)),
      economy := m.economy * min (1/4 * severity) (4/5),
      culture := m.culture * min (3/10 * severity) (17/20),
      military := m.military * min (1/5 * severity) (7/10),
      science := m.science * min (1/5 * severity) (7/10),
      research_stock := 0, culture_stock := 0 }

/-- Per-nation civ-state reset of `extinction_system`: note it does NOT skip
destroyed nations and floors `cities` at 1. -/
def extinction_civ_step (s : NationCivState) : NationCivState :=
  { s with cities := toU64 (max ((s.cities : ℚ) * (3/10)) 1),
           happiness := 45, production := s.production * (1/4), stability := 40 }

/-- Oracle inputs of one projected tick: every seasonal, climate, cosmic,
cross-nation and random quantity read by the embedded systems. -/
structure TickOracle where
  morale_shift : ℚ
  yield_shift : ℚ
  risk_shift : ℚ
  founded : Bool
  battles : List (Bool × ℕ)
  impact_risk : ℚ
  impact_biodiversity : ℚ
  sea_level : ℚ
  ice_line : ℚ
  cycle : ℚ
  demography_risk : ℚ
  plague_per : Option ℕ
  catastrophe : Option ℚ
  omega : Option ℚ
  extinct_risk : ℚ
  extinct_biodiversity : ℚ
  cosmic_age_years : ℚ
  timescale_years_per_tick : ℚ

/-- End-of-tick per-nation state: the composition, in schedule order
(src/simulation/mod.rs), of every scheduled system that writes population,
age cohorts, `is_destroyed` or cities. -/
def nationTick (o : TickOracle) (mc : NationMetrics × NationCivState) :
    NationMetrics × NationCivState :=
  let m := environment_metrics_step o.morale_shift o.yield_shift o.risk_shift mc.1
  let civ := environment_civ_step o.morale_shift o.yield_shift o.risk_shift mc.2
  let mc := civilization_system_step o.founded m civ
  let mc := warfareStep o.battles mc
  let mc := climate_impact_step o.impact_risk o.impact_biodiversity
    o.sea_level o.ice_line mc.1 mc.2
  let m := demography_system_step o.cycle o.demography_risk mc.1
  let m := event_population_step o.plague_per o.catastrophe o.omega m
  let civ := mc.2
  if extinction_trigger o.extinct_risk o.extinct_biodiversity o.cosmic_age_years then
    (extinction_metrics_step
        (extinction_severity o.timescale_years_per_tick o.cosmic_age_years) m,
     extinction_civ_step civ)
  else (m, civ)

/-! ## Science/space victory system (src/simulation/systems/victory.rs) -/

/-- `SpaceStage` (src/simulation/resources.rs). -/
inductive SpaceStage
  | Moon
  | Mars
  | Jovian
  | Interstellar
deriving DecidableEq, Repr

/-- `ScienceVictory` (src/simulation/resources.rs); the per-nation progress
map is modelled as a total function (`entry(..).or_insert(0.0)` semantics). -/
structure ScienceVictory where
  progress : Nation → ℚ
  goal : ℚ
  leader_history : List ℚ
  milestones : Nation → ℕ
  finished : Bool
  winner : Option Nation
  interstellar_mode : Bool
  interstellar_progress : ℚ
  interstellar_goal : ℚ
  space_stage : SpaceStage
  mars_progress : ℚ
  mars_goal : ℚ
  mars_done : Bool
  jovian_progress : ℚ
  jovian_goal : ℚ
  jovian_done : Bool
  moon_done : Bool

/-- `Default for ScienceVictory` (src/simulation/resources.rs). -/
def ScienceVictory.default : ScienceVictory where
  progress := fun _ => 0
  goal := 100
  leader_history := []
  milestones := fun _ => 0
  finished := false
  winner := none
  interstellar_mode := false
  interstellar_progress := 0
  interstellar_goal := 100
  space_stage := .Moon
  mars_progress := 0
  mars_goal := 100
  mars_done := false
  jovian_progress := 0
  jovian_goal := 100
  jovian_done := false
  moon_done := false

/-- Moon-phase era bonus of `science_victory_system`. -/
def era_bonus : Era → ℚ
  | .Dawn => 4/5
  | .Ancient => 9/10
  | .Classical => 1
  | .Medieval => 21/20
  | .Industrial => 28/25
  | .Modern => 6/5
  | .Nuclear => 27/20

/-- Bloc strength recomputation of `bloc_system`
(src/simulation/systems/blocs.rs): capped at 10. -/
def bloc_strength (total_science total_econ : ℚ) : ℚ :=
  min (total_science * (1/100) + total_econ * (1/200)) 10

/-- Moon-phase per-nation progress gain of `science_victory_system`.
`bloc_bonus` / `embargo_drag` are the ResearchPact / Sanction bloc terms
(`strength * 0.3` resp. `strength * 0.2` for members, zero otherwise). -/
def moon_progress_gain (m : NationMetrics) (bloc_bonus embargo_drag : ℚ) : ℚ :=
  let population_factor := clampQ ((m.population : ℚ) / 5000000) (7/20) (23/10)
  let diplomacy_bonus := min (m.diplomacy * (3/500) + m.culture * (1/250)) 4
  let conflict_drag := max (100 - m.military) 0 * (9/10000)
  let momentum := (m.science * (21/500) + m.economy * (3/250) + m.culture * (7/1000)
      + m.research_stock * (1/400) + diplomacy_bonus + bloc_bonus - embargo_drag)
    * era_bonus m.era * max (1 - conflict_drag) (3/5)
  momentum * population_factor * (1/100)

/-- Moon-phase per-nation progress entry update:
`*entry = (*entry + progress_gain).min(goal)`. -/
def moon_progress_update (m : NationMetrics) (bloc_bonus embargo_drag goal entry : ℚ) : ℚ :=
  min (entry + moon_progress_gain m bloc_bonus embargo_drag) goal

/-- Leader-history push with its 256-entry cap (`remove(0)` on overflow). -/
def push_leader_history (h : List ℚ) (v : ℚ) : List ℚ :=
  let h1 := h ++ [v]
  if 256 < h1.length then h1.tail else h1

/-- Moon-branch tail of `science_victory_system`: leader-history push with
its cap, then the goal check that records the winner and advances the stage
to Mars. -/
def moon_phase_step (nation : Nation) (value : ℚ) (t : ScienceVictory) :
    ScienceVictory :=
  let t2 := { t with
    leader_history := push_leader_history t.leader_history (min value t.goal) }
  if t2.goal ≤ value ∧ ¬ t2.moon_done then
    { t2 with moon_done := true, winner := some nation, space_stage := .Mars }
  else t2

/-- Mars ramp branch of `science_victory_system`. -/
def mars_ramp_step (t : ScienceVictory) : ScienceVictory :=
  let base := t.mars_progress
  let growth := 2/5 + base / t.mars_goal * (9/10)
  let t1 := { t with mars_progress := min (base + growth) t.mars_goal }
  if t1.mars_goal ≤ t1.mars_progress then
    { t1 with mars_done := true, space_stage := .Jovian }
  else t1

/-- Jovian ramp branch of `science_victory_system`. -/
def jovian_ramp_step (t : ScienceVictory) : ScienceVictory :=
  let base := t.jovian_progress
  let growth := 7/20 + base / t.jovian_goal * (4/5)
  let t1 := { t with jovian_progress := min (base + growth) t.jovian_goal }
  if t1.jovian_goal ≤ t1.jovian_progress then
    { t1 with jovian_done := true, space_stage := .Interstellar,
              interstellar_mode := true }
  else t1

/-- Interstellar ramp branch of `science_victory_system`. -/
def interstellar_ramp_step (t : ScienceVictory) : ScienceVictory :=
  let base := t.interstellar_progress
  let growth := 3/5 + base / t.interstellar_goal * (4/5)
  let t1 := { t with interstellar_progress := min (base + growth) t.interstellar_goal }
  if t1.interstellar_goal ≤ t1.interstellar_progress then
    { t1 with interstellar_mode := false, finished := true }
  else t1

/-- One tick of the `science_victory_system` phase machine.  The Moon
branch's per-nation fold is abstracted by the oracle `moon_leader` — the
leader nation and its progress value after this tick's updates (`none` when
no live nation exists); the Mars/Jovian/Interstellar ramps are verbatim. -/
def science_victory_step (moon_leader : Option (Nation × ℚ))
    (t : ScienceVictory) : ScienceVictory :=
  if ¬ t.moon_done then
    match moon_leader with
    | none => t
    | some (nation, value) => moon_phase_step nation value t
  else if t.space_stage = SpaceStage.Mars then mars_ramp_step t
  else if t.space_stage = SpaceStage.Jovian then jovian_ramp_step t
  else if t.interstellar_mode then interstellar_ramp_step t
  else t

/-- Position in the claimed phase order Moon → Mars → Jovian → Interstellar
→ Finished. -/
def phaseIndex (t : ScienceVictory) : ℕ :=
  if t.finished then 4
  else
    match t.space_stage with
    | .Moon => 0
    | .Mars => 1
    | .Jovian => 2
    | .Interstellar => 3

/-- Oracle of the C1/C2 counterexample tick: no battles, no event pulses, and
an extinction trigger through climate risk 96 > 95; default cosmic timeline
(age one tick of one million years, timescale one million years per tick). -/
def extinctionOracle : TickOracle where
  morale_shift := 0
  yield_shift := 0
  risk_shift := 0
  founded := false
  battles := []
  impact_risk := 0
  impact_biodiversity := 85
  sea_level := 0
  ice_line := 1
  cycle := 0
  demography_risk := 0
  plague_per := none
  catastrophe := none
  omega := none
  extinct_risk := 96
  extinct_biodiversity := 85
  cosmic_age_years := 1000000
  timescale_years_per_tick := 1000000

/-- A quiet tick oracle: no battles, no pulses, no extinction trigger. -/
def benignOracle : TickOracle :=
  { extinctionOracle with extinct_risk := 0 }

/-! ## Simulation construction (src/simulation/mod.rs) -/

/-- `SimulationConfig` (src/simulation/resources.rs); the `Duration` tick
length is carried in milliseconds. -/
structure SimulationConfig where
  tick_duration_ms : ℕ
  grid_radius : ℤ
  years_per_tick : ℚ

/-- Rust inclusive integer range `a..=b` as a list. -/
def intRange (a b : ℤ) : List ℤ :=
  (List.range (b + 1 - a).toNat).map (fun i => a + i)

/-- The axial-distance closure of `seed_grid` (src/simulation/mod.rs). -/
def axial_distance (q1 r1 q2 r2 : ℤ) : ℕ :=
  ((q1 - q2).natAbs + (q1 + r1 - q2 - r2).natAbs + (r1 - r2).natAbs) / 2

/-- The coordinates seeded by `seed_grid`: the hex diamond of the given
radius restricted by the circular land mask of radius `max (radius-2) 1`. -/
def seed_grid_coords (radius : ℤ) : List (ℤ × ℤ) :=
  (intRange (-radius) radius).flatMap (fun q =>
    (intRange (max (-radius) (-q - radius)) (min radius (-q + radius))).filterMap
      (fun r =>
        let land_radius := max (radius - 2) 1
        if (axial_distance q r 0 0 : ℤ) ≤ land_radius then some (q, r) else none))

/-- The observable result of `SimulationWorld::with_observer`
(src/simulation/mod.rs).  The constructor is total: its Rust signature
returns `Self` (not `Result`), it performs no validation of the
configuration, and it unconditionally inserts default resources and seeds
the grid.  Hex contents (owner/elevation/biome use trigonometry) are
omitted; only the seeded coordinate set is kept. -/
structure SimulationWorldModel where
  config : SimulationConfig
  metrics : Nation → NationMetrics
  civ : Nation → NationCivState
  timescale_years_per_tick : ℚ
  grid_coords : List (ℤ × ℤ)

/-- `SimulationWorld::with_observer` as a total constructor. -/
def SimulationWorld.with_observer (config : SimulationConfig) :
    SimulationWorldModel where
  config := config
  metrics := fun _ => NationMetrics.default
  civ := fun _ => NationCivState.default
  timescale_years_per_tick := config.years_per_tick
  grid_coords := seed_grid_coords config.grid_radius

/-! ## World event log (src/simulation/events.rs)

The `WorldEvent` payload carried by the log is irrelevant to the ring-buffer
discipline, so the element type is a parameter; the `VecDeque` is a list
whose head is the front (oldest entry). -/

structure WorldEventLog (α : Type) where
  events : List α
  capacity : ℕ

/-- `WorldEventLog::new`. -/
def WorldEventLog.new (α : Type) (capacity : ℕ) : WorldEventLog α :=
  ⟨[], capacity⟩

/-- `WorldEventLog::push`: pop the front (oldest) when full, then push back. -/
def WorldEventLog.push {α : Type} (log : WorldEventLog α) (e : α) :
    WorldEventLog α :=
  if log.events.length = log.capacity then
    { log with events := log.events.tail ++ [e] }
  else
    { log with events := log.events ++ [e] }

/-- A sequence of pushes. -/
def WorldEventLog.pushAll {α : Type} (log : WorldEventLog α) (es : List α) :
    WorldEventLog α :=
  es.foldl WorldEventLog.push log

/-! ## AI state transition system (src/simulation/systems/ai.rs) -/

/-- `BehaviorState` (src/simulation/components.rs). -/
inductive BehaviorState
  | Idle
  | Explore
  | Gather
  | Trade
  | Hunt
  | Rest
deriving DecidableEq, Repr

/-- `Faction` (src/simulation/components.rs). -/
inductive Faction
  | Neutral
  | MerchantGuild
  | BanditClans
  | ExplorersLeague
  | SettlersUnion
  | TempleOfSuns
deriving DecidableEq, Repr

/-- `Biome` (src/simulation/components.rs). -/
inductive Biome
  | Forest
  | Plains
  | Desert
  | Village
  | Market
deriving DecidableEq, Repr

/-- `Personality` (src/simulation/components.rs). -/
structure Personality where
  aggressive : ℚ
  cautious : ℚ
  social : ℚ
  curious : ℚ
deriving DecidableEq, Repr

/-- The six base transition tables (src/simulation/systems/ai.rs). -/
def transition_options : BehaviorState → List (BehaviorState × ℚ)
  | .Idle => [(.Idle, 1/5), (.Explore, 3/10), (.Trade, 1/4), (.Rest, 1/4)]
  | .Explore => [(.Explore, 1/5), (.Gather, 7/20), (.Hunt, 1/4), (.Trade, 1/5)]
  | .Gather => [(.Gather, 1/4), (.Trade, 2/5), (.Rest, 1/5), (.Explore, 3/20)]
  | .Trade => [(.Trade, 7/20), (.Rest, 1/5), (.Idle, 3/20), (.Explore, 3/10)]
  | .Hunt => [(.Hunt, 1/4), (.Rest, 3/10), (.Gather, 1/5), (.Trade, 1/4)]
  | .Rest => [(.Rest, 3/10), (.Idle, 7/20), (.Explore, 1/5), (.Trade, 3/20)]

/-- `personality_modifier` (src/simulation/systems/ai.rs). -/
def personality_modifier (p : Personality) (state : BehaviorState) : ℚ :=
  let modifier := 1 + (match state with
    | .Hunt => p.aggressive * (3/5) - p.cautious * (3/10)
    | .Trade => p.social * (13/20) + p.curious * (3/20)
    | .Explore => p.curious * (3/5) - p.cautious * (1/5)
    | .Gather => p.curious * (1/5) + p.cautious * (1/5)
    | .Rest => p.cautious * (2/5) - p.aggressive * (1/5)
    | .Idle => (p.cautious - p.curious) * (1/10))
  clampQ modifier (1/10) (5/2)

/-- `epoch_modifier` (src/simulation/systems/ai.rs). -/
def epoch_modifier (segment : String) (state : BehaviorState) : ℚ :=
  if segment = "새벽" then
    match state with
    | .Explore | .Gather => 23/20
    | .Rest => 17/20
    | _ => 1
  else if segment = "한낮" then
    match state with
    | .Trade => 5/4
    | .Idle => 3/4
    | _ => 1
  else if segment = "해질녘" then
    match state with
    | .Hunt => 5/4
    | .Rest => 11/10
    | .Trade => 3/4
    | _ => 1
  else 1

/-- `season_modifier` (src/simulation/systems/ai.rs). -/
def season_modifier (season : String) (state : BehaviorState) : ℚ :=
  if season = "꽃피움 계절" then
    match state with
    | .Gather => 6/5
    | .Trade => 21/20
    | _ => 1
  else if season = "불꽃 절정" then
    match state with
    | .Explore | .Hunt => 11/10
    | .Rest => 19/20
    | _ => 1
  else if season = "잿불 내림" then
    match state with
    | .Rest => 5/4
    | .Trade => 9/10
    | _ => 1
  else 1

/-- The world-metadata and macro inputs of one AI pass: the biome and faction
bias tables of `WorldMetadata`, the tick-derived day segment and season, and
the science-race flag. -/
structure AiGlobals where
  biome_bias : Biome → BehaviorState → ℚ
  faction_modifier : Faction → BehaviorState → ℚ
  segment : String
  season : String
  science_finished : Bool

/-- The per-entity components read by the AI pass. -/
structure AiEntity where
  id : ℕ
  faction : Faction
  biome : Biome
  personality : Personality
  state : BehaviorState
deriving DecidableEq, Repr

/-- One candidate's weight (src/simulation/systems/ai.rs, inner loop). -/
def candidate_weight (g : AiGlobals) (e : AiEntity) (next_state : BehaviorState)
    (base_weight : ℚ) : ℚ :=
  let weight := base_weight
  let weight := weight * personality_modifier e.personality next_state
  let weight := weight * g.biome_bias e.biome next_state
  let weight := weight * g.faction_modifier e.faction next_state
  let weight := weight * epoch_modifier g.segment next_state
  let weight := weight * season_modifier g.season next_state
  let weight :=
    if ¬ g.science_finished then
      match next_state with
      | .Trade => weight * (5/4)
      | .Gather => weight * (11/10)
      | .Hunt => weight * (4/5)
      | _ => weight
    else weight
  max weight (1/100)

/-- The per-entity PRNG seed:
`time.tick.wrapping_mul(97).wrapping_add(identity.id).wrapping_mul(53)`
on `u64` — it depends only on the tick and the entity id. -/
def ai_seed (tick id : ℕ) : ℕ :=
  (tick * 97 % 2 ^ 64 + id) % 2 ^ 64 * 53 % 2 ^ 64

/-- The cumulative-threshold selection loop; `current` is the entity's
previous state, kept when no candidate fires. -/
def select_transition : List (BehaviorState × ℚ) → ℚ → BehaviorState → BehaviorState
  | [], _, current => current
  | (candidate, weight) :: rest, threshold, current =>
    if threshold - weight ≤ 0 then candidate
    else select_transition rest (threshold - weight) current

/-- One entity's transition in `ai_state_transition_system`: a pure function
of the globals, the tick, the entity's own components, and the RNG draw
function (`SmallRng::seed_from_u64` followed by `gen_range(0.0..total)` is a
pure function of seed and total, supplied as the oracle `draw`). -/
def ai_next_state (g : AiGlobals) (draw : ℕ → ℚ → ℚ) (tick : ℕ)
    (e : AiEntity) : BehaviorState :=
  let weighted_options := (transition_options e.state).map
    (fun sw => (sw.1, candidate_weight g e sw.1 sw.2))
  let total_weight := (weighted_options.map (fun sw => sw.2)).sum
  let threshold := draw (ai_seed tick e.id) total_weight
  select_transition weighted_options threshold e.state

/-- The whole AI pass: per-entity transitions, each re-seeded independently
(no RNG state is threaded from one entity to the next). -/
def ai_state_transition_system (g : AiGlobals) (draw : ℕ → ℚ → ℚ) (tick : ℕ)
    (entities : List AiEntity) : List (ℕ × BehaviorState) :=
  entities.map (fun e => (e.id, ai_next_state g draw tick e))

/-! ## Diplomacy sanctions (src/simulation/systems/diplomacy.rs) -/

/-- The sanction-insertion pass of `diplomacy_system`: for each relations
entry, push the ordered pair if its score is below −45 and the pair is not
already listed. -/
def sanction_update (relations : List ((Nation × Nation) × ℚ))
    (sanctions : List (Nation × Nation)) : List (Nation × Nation) :=
  relations.foldl
    (fun sanctions entry =>
      if entry.2 < -45 ∧ entry.1 ∉ sanctions then sanctions ++ [entry.1]
      else sanctions)
    sanctions

/-! ## Biodiversity writers (src/simulation/systems/climate.rs, cosmic.rs) -/

/-- The biodiversity update of `climate_system`: erosion from carbon, war
fatigue and fallout, slow recovery, then the hard clamp to [5, 120]. -/
def climate_biodiversity_step (carbon_ppm stage_factor fatigue richness : ℚ)
    (blast_total : ℕ) (biodiversity : ℚ) : ℚ :=
  let erosion := carbon_ppm / 1200 * stage_factor * (4/5) + fatigue * (1/100)
    + (blast_total : ℚ) * (1/20)
  let recovery := max (1 - richness) (1/20) * (3/5)
  clampQ (biodiversity - erosion + recovery) 5 120

/-- The biodiversity reset of `extinction_system`:
`(20.0 * severity).max(5.0).min(80.0)`. -/
def extinction_biodiversity_reset (severity : ℚ) : ℚ :=
  min (max (20 * severity) 5) 80

/-- The two writers of `ClimateState.biodiversity` (no other scheduled
system assigns the field). -/
inductive BioStep
  | climate (carbon_ppm stage_factor fatigue richness : ℚ) (blast_total : ℕ)
  | extinction (severity : ℚ)

/-- Apply one writer. -/
def applyBioStep (b : ℚ) : BioStep → ℚ
  | .climate c s f r n => climate_biodiversity_step c s f r n b
  | .extinction sev => extinction_biodiversity_reset sev

/-- Biodiversity after any interleaving of writer steps, from the
construction-time default 85 (`ClimateState::default`). -/
def bioReach (steps : List BioStep) : ℚ :=
  steps.foldl applyBioStep 85

lemma apply_war_science_penalty_territory (m : NationMetrics) (c : ℕ) :
    (apply_war_science_penalty m c).territory = m.territory := by
  unfold apply_war_science_penalty; split <;> rfl

lemma apply_war_science_penalty_population (m : NationMetrics) (c : ℕ) :
    (apply_war_science_penalty m c).population = m.population := by
  unfold apply_war_science_penalty; split <;> rfl

lemma apply_war_science_penalty_is_destroyed (m : NationMetrics) (c : ℕ) :
    (apply_war_science_penalty m c).is_destroyed = m.is_destroyed := by
  unfold apply_war_science_penalty; split <;> rfl

/-- C5 statement target: escalation implies a top-tier combatant. -/
theorem resolveBattle_nuclear_requires_arsenal (tick : ℕ) (rng : BattleRng)
    (wm lm : NationMetrics) (lc : NationCivState)
    (h : (resolveBattle tick rng wm lm lc).nuclear = true) :
    wm.weapon_tier = WeaponTier.NuclearArsenal ∨
      lm.weapon_tier = WeaponTier.NuclearArsenal := by
  unfold resolveBattle at h
  simp only [Bool.and_eq_true, Bool.or_eq_true, decide_eq_true_eq] at h
  exact h.1

/-- C3 statement target: casualty clamp and symmetric territory transfer. -/
theorem resolveBattle_casualties_territory (tick : ℕ) (rng : BattleRng)
    (wm lm : NationMetrics) (lc : NationCivState)
    (hw : 0 ≤ wm.territory) (hl : 1/2 ≤ lm.territory) :
    (15000 ≤ (resolveBattle tick rng wm lm lc).total_casualties ∧
      (resolveBattle tick rng wm lm lc).total_casualties ≤ 2000000) ∧
    (resolveBattle tick rng wm lm lc).winner.territory = wm.territory + 1/2 ∧
    (resolveBattle tick rng wm lm lc).loser.territory = lm.territory - 1/2 ∧
    (resolveBattle tick rng wm lm lc).winner_casualties =
      toU64 (((resolveBattle tick rng wm lm lc).total_casualties : ℚ) * (7/20)) ∧
    (resolveBattle tick rng wm lm lc).loser_casualties =
      (resolveBattle tick rng wm lm lc).total_casualties -
        (resolveBattle tick rng wm lm lc).winner_casualties := by
  unfold resolveBattle
  refine ⟨⟨le_min (le_max_right _ _) (by norm_num), min_le_right _ _⟩, ?_, ?_, rfl, rfl⟩
  · simp only [apply_war_science_penalty_territory]
    exact max_eq_left (by linarith)
  · simp only [apply_war_science_penalty_territory]
    split <;> simp only [apply_war_science_penalty_territory] <;>
      exact max_eq_left (by linarith)

lemma battleRole_destroyed (w : Bool) (c : ℕ) (m : NationMetrics)
    (civ : NationCivState) (h : m.is_destroyed = true) (hp : m.population = 0)
    (hc : civ.cities = 0) :
    (battleRole w c m civ).1.is_destroyed = true ∧
      (battleRole w c m civ).1.population = 0 ∧
      (battleRole w c m civ).2.cities = 0 := by
  cases w with
  | true =>
    refine ⟨?_, ?_, ?_⟩ <;>
      simp [battleRole, apply_war_science_penalty_is_destroyed,
        apply_war_science_penalty_population, h, hp, hc]
  | false =>
    simp only [battleRole, Bool.false_eq_true, if_false]
    split
    · exact ⟨rfl, rfl, rfl⟩
    · refine ⟨?_, ?_, ?_⟩ <;>
        simp [apply_war_science_penalty_is_destroyed,
          apply_war_science_penalty_population, h, hp, hc]

lemma warfareStep_destroyed (bs : List (Bool × ℕ))
    (mc : NationMetrics × NationCivState) (h : mc.1.is_destroyed = true)
    (hp : mc.1.population = 0) (hc : mc.2.cities = 0) :
    (warfareStep bs mc).1.is_destroyed = true ∧
      (warfareStep bs mc).1.population = 0 ∧
      (warfareStep bs mc).2.cities = 0 := by
  induction bs generalizing mc with
  | nil => exact ⟨h, hp, hc⟩
  | cons b bs ih =>
    have step := battleRole_destroyed b.1 b.2 mc.1 mc.2 h hp hc
    simpa [warfareStep, List.foldl_cons] using
      ih (battleRole b.1 b.2 mc.1 mc.2) step.1 step.2.1 step.2.2

lemma civilization_system_step_destroyed (f : Bool) (m : NationMetrics)
    (civ : NationCivState) (h : m.is_destroyed = true) :
    civilization_system_step f m civ =
      ({ m with population := 0 },
       { civ with cities := 0, production := 0, happiness := 0, stability := 0 }) := by
  unfold civilization_system_step; simp [h]

lemma climate_impact_step_destroyed (r b s i : ℚ) (m : NationMetrics)
    (civ : NationCivState) (h : m.is_destroyed = true) :
    climate_impact_step r b s i m civ = (m, civ) := by
  unfold climate_impact_step; simp [h]

lemma demography_system_step_destroyed (cy r : ℚ) (m : NationMetrics)
    (h : m.is_destroyed = true) : demography_system_step cy r m = m := by
  unfold demography_system_step; simp [h]

lemma event_population_step_destroyed (p : Option ℕ) (c om : Option ℚ)
    (m : NationMetrics) (h : m.is_destroyed = true) :
    event_population_step p c om m = m := by
  unfold event_population_step
  cases p <;> cases c <;> cases om <;> simp [h]

lemma extinction_metrics_step_destroyed (s : ℚ) (m : NationMetrics)
    (h : m.is_destroyed = true) : extinction_metrics_step s m = m := by
  unfold extinction_metrics_step; simp [h]

/-- Reachability support for the C3 hypotheses: `climate_impact_system`
floors every live nation's territory at 5 each tick (and the only other
writer, warfare, lowers it by at most 0.5 per battle), so a battle's loser
always has territory at least 1/2. -/
lemma climate_impact_step_territory_floor (r b se i : ℚ) (m : NationMetrics)
    (civ : NationCivState) (h : m.is_destroyed = false) :
    5 ≤ (climate_impact_step r b se i m civ).1.territory := by
  unfold climate_impact_step
  simp only [h, Bool.false_eq_true, if_false]
  have hfloor : (5 : ℚ) ≤ max (m.territory * (49/50 - se * (1/4))) 5 :=
    le_max_right _ _
  split <;> split <;> split <;>
    first
      | exact le_max_right _ _
      | exact le_min (by linarith) (by norm_num)

/-- C2 (amended) statement target: a destroyed nation stays destroyed with
zero population at every end of tick; its city count is zero except at the
end of a tick whose extinction reset fired (that reset's civ-state loop does
not skip destroyed nations and floors `cities` at one). -/
theorem destroyed_nation_no_resurrection (o : TickOracle) (m : NationMetrics)
    (civ : NationCivState) (h : m.is_destroyed = true) :
    (nationTick o (m, civ)).1.is_destroyed = true ∧
    (nationTick o (m, civ)).1.population = 0 ∧
    (extinction_trigger o.extinct_risk o.extinct_biodiversity o.cosmic_age_years
        = false →
      (nationTick o (m, civ)).2.cities = 0) := by
  unfold nationTick
  dsimp only
  have hm1 : (environment_metrics_step o.morale_shift o.yield_shift o.risk_shift
      m).is_destroyed = true := h
  rw [civilization_system_step_destroyed _ _ _ hm1]
  have hw := warfareStep_destroyed o.battles
    ({ environment_metrics_step o.morale_shift o.yield_shift o.risk_shift m
        with population := 0 },
     { environment_civ_step o.morale_shift o.yield_shift o.risk_shift civ
        with cities := 0, production := 0, happiness := 0, stability := 0 })
    h rfl rfl
  rw [climate_impact_step_destroyed _ _ _ _ _ _ hw.1]
  rw [demography_system_step_destroyed _ _ _ hw.1,
    event_population_step_destroyed _ _ _ _ hw.1]
  split
  · rw [extinction_metrics_step_destroyed _ _ hw.1]
    refine ⟨hw.1, hw.2.1, ?_⟩
    intro hfalse
    simp_all
  · exact ⟨hw.1, hw.2.1, fun _ => hw.2.2⟩

/-- Witness for `destroyed_nation_no_resurrection`: a destroyed default
nation over a quiet tick. -/
theorem destroyed_nation_no_resurrection_witness :
    ({ NationMetrics.default with is_destroyed := true, population := 0 }.is_destroyed
        = true) ∧
    (nationTick benignOracle
        ({ NationMetrics.default with is_destroyed := true, population := 0 },
         NationCivState.default)).1.is_destroyed = true :=
  ⟨rfl, (destroyed_nation_no_resurrection benignOracle
    { NationMetrics.default with is_destroyed := true, population := 0 }
    NationCivState.default rfl).1⟩

/-- C2 counterexample: on a tick whose extinction reset fires (climate risk
96 > 95), a destroyed nation that entered the tick with zero cities ends the
tick with `cities = 1`. -/
theorem destroyed_cities_floored_on_extinction_tick :
    (nationTick extinctionOracle
        ({ NationMetrics.default with is_destroyed := true, population := 0, territory := 0 },
         { NationCivState.default with cities := 0, production := 0, happiness := 0, stability := 0 })).2.cities
      = 1 := by
  unfold nationTick
  dsimp only
  rw [civilization_system_step_destroyed _ _ _ rfl]
  rw [show extinctionOracle.battles = [] from rfl]
  rw [show ∀ mc : NationMetrics × NationCivState, warfareStep [] mc = mc
    from fun _ => rfl]
  rw [climate_impact_step_destroyed _ _ _ _ _ _ rfl,
    demography_system_step_destroyed _ _ _ rfl,
    event_population_step_destroyed _ _ _ _ rfl]
  rw [if_pos]
  · norm_num [extinction_civ_step, environment_civ_step, clampQ, toU64]
  · norm_num [extinctionOracle, extinction_trigger]

/-- C1 (amended) statement target: immediately after the demography pass,
every non-destroyed nation's population equals youth + adult + elder. -/
theorem demography_restores_population_invariant (cycle risk : ℚ)
    (m : NationMetrics) (h : m.is_destroyed = false) :
    (demography_system_step cycle risk m).population =
      (demography_system_step cycle risk m).youth +
        (demography_system_step cycle risk m).adult +
        (demography_system_step cycle risk m).elder := by
  unfold demography_system_step
  simp [h]

/-- Witness for `demography_restores_population_invariant` at the default
nation state. -/
theorem demography_restores_population_invariant_witness :
    NationMetrics.default.is_destroyed = false ∧
    (demography_system_step 0 0 NationMetrics.default).population =
      (demography_system_step 0 0 NationMetrics.default).youth +
        (demography_system_step 0 0 NationMetrics.default).adult +
        (demography_system_step 0 0 NationMetrics.default).elder :=
  ⟨rfl, demography_restores_population_invariant 0 0 NationMetrics.default rfl⟩

/-- C1 counterexample: on a tick whose extinction reset fires, the published
end-of-tick population of a live default nation is 300069 while its cohorts
sum to 3000690 — the invariant is broken because the reset scales
`population` without touching the cohorts. -/
theorem extinction_tick_breaks_population_invariant :
    (nationTick extinctionOracle
        (NationMetrics.default, NationCivState.default)).1.is_destroyed = false ∧
    (nationTick extinctionOracle
        (NationMetrics.default, NationCivState.default)).1.population = 300069 ∧
    (nationTick extinctionOracle
          (NationMetrics.default, NationCivState.default)).1.youth +
        (nationTick extinctionOracle
          (NationMetrics.default, NationCivState.default)).1.adult +
        (nationTick extinctionOracle
          (NationMetrics.default, NationCivState.default)).1.elder = 3000690 := by
  norm_num [nationTick, extinctionOracle, NationMetrics.default, NationCivState.default,
    environment_metrics_step, environment_civ_step, civilization_system_step,
    warfareStep, climate_impact_step, demography_system_step,
    event_population_step, extinction_trigger, extinction_severity,
    extinction_metrics_step, extinction_civ_step, clampQ, toU64, roundU64,
    round_eq, min_def, max_def]
  simp
  norm_num
  rfl

lemma moon_phase_step_ramp_fields (n : Nation) (v : ℚ) (t : ScienceVictory) :
    (moon_phase_step n v t).mars_progress = t.mars_progress ∧
    (moon_phase_step n v t).jovian_progress = t.jovian_progress ∧
    (moon_phase_step n v t).interstellar_progress = t.interstellar_progress ∧
    (moon_phase_step n v t).finished = t.finished := by
  unfold moon_phase_step; dsimp only
  refine ⟨?_, ?_, ?_, ?_⟩ <;> split <;> rfl

lemma moon_phase_step_stage (n : Nation) (v : ℚ) (t : ScienceVictory) :
    (moon_phase_step n v t).space_stage = t.space_stage ∨
      (moon_phase_step n v t).space_stage = SpaceStage.Mars := by
  unfold moon_phase_step; dsimp only; split
  · exact Or.inr rfl
  · exact Or.inl rfl

lemma science_victory_step_mars_bounds (ml : Option (Nation × ℚ))
    (t : ScienceVictory) (h0 : 0 ≤ t.mars_progress)
    (h1 : t.mars_progress ≤ t.mars_goal) (h2 : 0 < t.mars_goal) :
    t.mars_progress ≤ (science_victory_step ml t).mars_progress ∧
      (science_victory_step ml t).mars_progress ≤ t.mars_goal := by
  have hq : 0 ≤ t.mars_progress / t.mars_goal := div_nonneg h0 h2.le
  unfold science_victory_step
  split
  · cases ml with
    | none => exact ⟨le_refl _, h1⟩
    | some p =>
      obtain ⟨n, v⟩ := p
      have hf := moon_phase_step_ramp_fields n v t
      simp only [hf.1]
      exact ⟨le_refl _, h1⟩
  · split
    · unfold mars_ramp_step
      dsimp only
      constructor
      · split <;> exact le_min (by linarith) h1
      · split <;> exact min_le_right _ _
    · split
      · unfold jovian_ramp_step
        dsimp only
        split <;> exact ⟨le_refl _, h1⟩
      · split
        · unfold interstellar_ramp_step
          dsimp only
          split <;> exact ⟨le_refl _, h1⟩
        · exact ⟨le_refl _, h1⟩

lemma science_victory_step_jovian_bounds (ml : Option (Nation × ℚ))
    (t : ScienceVictory) (h0 : 0 ≤ t.jovian_progress)
    (h1 : t.jovian_progress ≤ t.jovian_goal) (h2 : 0 < t.jovian_goal) :
    t.jovian_progress ≤ (science_victory_step ml t).jovian_progress ∧
      (science_victory_step ml t).jovian_progress ≤ t.jovian_goal := by
  have hq : 0 ≤ t.jovian_progress / t.jovian_goal := div_nonneg h0 h2.le
  unfold science_victory_step
  split
  · cases ml with
    | none => exact ⟨le_refl _, h1⟩
    | some p =>
      obtain ⟨n, v⟩ := p
      have hf := moon_phase_step_ramp_fields n v t
      simp only [hf.2.1]
      exact ⟨le_refl _, h1⟩
  · split
    · unfold mars_ramp_step
      dsimp only
      split <;> exact ⟨le_refl _, h1⟩
    · split
      · unfold jovian_ramp_step
        dsimp only
        constructor
        · split <;> exact le_min (by linarith) h1
        · split <;> exact min_le_right _ _
      · split
        · unfold interstellar_ramp_step
          dsimp only
          split <;> exact ⟨le_refl _, h1⟩
        · exact ⟨le_refl _, h1⟩

lemma science_victory_step_interstellar_bounds (ml : Option (Nation × ℚ))
    (t : ScienceVictory) (h0 : 0 ≤ t.interstellar_progress)
    (h1 : t.interstellar_progress ≤ t.interstellar_goal)
    (h2 : 0 < t.interstellar_goal) :
    t.interstellar_progress ≤ (science_victory_step ml t).interstellar_progress ∧
      (science_victory_step ml t).interstellar_progress ≤ t.interstellar_goal := by
  have hq : 0 ≤ t.interstellar_progress / t.interstellar_goal :=
    div_nonneg h0 h2.le
  unfold science_victory_step
  split
  · cases ml with
    | none => exact ⟨le_refl _, h1⟩
    | some p =>
      obtain ⟨n, v⟩ := p
      have hf := moon_phase_step_ramp_fields n v t
      simp only [hf.2.2.1]
      exact ⟨le_refl _, h1⟩
  · split
    · unfold mars_ramp_step
      dsimp only
      split <;> exact ⟨le_refl _, h1⟩
    · split
      · unfold jovian_ramp_step
        dsimp only
        split <;> exact ⟨le_refl _, h1⟩
      · split
        · unfold interstellar_ramp_step
          dsimp only
          constructor
          · split <;> exact le_min (by linarith) h1
          · split <;> exact min_le_right _ _
        · exact ⟨le_refl _, h1⟩

lemma science_victory_step_phase_forward (ml : Option (Nation × ℚ))
    (t : ScienceVictory)
    (hmoonwf : t.moon_done = false → t.space_stage = SpaceStage.Moon)
    (hintwf : t.interstellar_mode = true → t.space_stage = SpaceStage.Interstellar) :
    phaseIndex (science_victory_step ml t) = phaseIndex t ∨
      phaseIndex (science_victory_step ml t) = phaseIndex t + 1 := by
  unfold science_victory_step
  split
  case isTrue hmd =>
    have hstage : t.space_stage = SpaceStage.Moon :=
      hmoonwf (by simpa using hmd)
    cases ml with
    | none => exact Or.inl rfl
    | some p =>
      obtain ⟨n, v⟩ := p
      have hf := moon_phase_step_ramp_fields n v t
      have hst := moon_phase_step_stage n v t
      by_cases hfin : t.finished = true
      · exact Or.inl (by simp [phaseIndex, hf.2.2.2, hfin])
      · rcases hst with h | h
        · exact Or.inl (by simp [phaseIndex, hf.2.2.2, hfin, h])
        · exact Or.inr (by simp [phaseIndex, hf.2.2.2, hfin, h, hstage])
  case isFalse hmd =>
    split
    case isTrue hmars =>
      unfold mars_ramp_step
      dsimp only
      by_cases hfin : t.finished = true
      · exact Or.inl (by split <;> simp [phaseIndex, hfin])
      · split
        · exact Or.inr (by simp [phaseIndex, hfin, hmars])
        · exact Or.inl (by simp [phaseIndex, hfin, hmars])
    case isFalse hnm =>
      split
      case isTrue hjov =>
        unfold jovian_ramp_step
        dsimp only
        by_cases hfin : t.finished = true
        · exact Or.inl (by split <;> simp [phaseIndex, hfin])
        · split
          · exact Or.inr (by simp [phaseIndex, hfin, hjov])
          · exact Or.inl (by simp [phaseIndex, hfin, hjov])
      case isFalse hnj =>
        split
        case isTrue hint =>
          have hstage : t.space_stage = SpaceStage.Interstellar := hintwf (by simpa using hint)
          unfold interstellar_ramp_step
          dsimp only
          by_cases hfin : t.finished = true
          · exact Or.inl (by split <;> simp [phaseIndex, hfin, hstage])
          · split
            · exact Or.inr (by simp [phaseIndex, hfin, hstage])
            · exact Or.inl (by simp [phaseIndex, hfin, hstage])
        case isFalse hni => exact Or.inl rfl

/-- C4 (amended) statement target: Moon-phase progress never exceeds the
phase goal and is non-decreasing whenever the momentum gain is non-negative
(a Sanction-bloc embargo drag exceeding all positive momentum sources can
make it negative); the Mars/Jovian/Interstellar ramps are unconditionally
non-decreasing and goal-bounded; and the phase only ever advances one step
forward through Moon → Mars → Jovian → Interstellar → Finished. -/
theorem science_victory_bounded_forward
    (m : NationMetrics) (bloc_bonus embargo_drag goal entry : ℚ)
    (ml : Option (Nation × ℚ)) (t : ScienceVictory)
    (hentry : entry ≤ goal)
    (hgain : 0 ≤ moon_progress_gain m bloc_bonus embargo_drag)
    (hmoonwf : t.moon_done = false → t.space_stage = SpaceStage.Moon)
    (hintwf : t.interstellar_mode = true → t.space_stage = SpaceStage.Interstellar)
    (hmars0 : 0 ≤ t.mars_progress) (hmars1 : t.mars_progress ≤ t.mars_goal)
    (hmars2 : 0 < t.mars_goal)
    (hjov0 : 0 ≤ t.jovian_progress) (hjov1 : t.jovian_progress ≤ t.jovian_goal)
    (hjov2 : 0 < t.jovian_goal)
    (hint0 : 0 ≤ t.interstellar_progress)
    (hint1 : t.interstellar_progress ≤ t.interstellar_goal)
    (hint2 : 0 < t.interstellar_goal) :
    (moon_progress_update m bloc_bonus embargo_drag goal entry ≤ goal ∧
      entry ≤ moon_progress_update m bloc_bonus embargo_drag goal entry) ∧
    (t.mars_progress ≤ (science_victory_step ml t).mars_progress ∧
      (science_victory_step ml t).mars_progress ≤ t.mars_goal) ∧
    (t.jovian_progress ≤ (science_victory_step ml t).jovian_progress ∧
      (science_victory_step ml t).jovian_progress ≤ t.jovian_goal) ∧
    (t.interstellar_progress ≤ (science_victory_step ml t).interstellar_progress ∧
      (science_victory_step ml t).interstellar_progress ≤ t.interstellar_goal) ∧
    (phaseIndex (science_victory_step ml t) = phaseIndex t ∨
      phaseIndex (science_victory_step ml t) = phaseIndex t + 1) := by
  refine ⟨⟨min_le_right _ _, le_min (by linarith [hgain]) hentry⟩, ?_, ?_, ?_, ?_⟩
  · exact science_victory_step_mars_bounds ml t hmars0 hmars1 hmars2
  · exact science_victory_step_jovian_bounds ml t hjov0 hjov1 hjov2
  · exact science_victory_step_interstellar_bounds ml t hint0 hint1 hint2
  · exact science_victory_step_phase_forward ml t hmoonwf hintwf

/-- C4 counterexample: for a Sanction-bloc member with zeroed science,
economy, culture, diplomacy and research stock, the embargo drag of a
strength-10 bloc makes the Moon-phase momentum negative, so the recorded
progress strictly decreases from 50. -/
theorem moon_progress_can_decrease :
    moon_progress_update
      { NationMetrics.default with science := 0, economy := 0, culture := 0, diplomacy := 0, research_stock := 0 }
      0 (bloc_strength 1000 0 * (1/5)) 100 50 < 50 := by
  norm_num [moon_progress_update, moon_progress_gain, bloc_strength, era_bonus,
    NationMetrics.default, clampQ, min_def, max_def]

/-- Witness for `science_victory_bounded_forward`: default nation, no bloc
terms, the default tracker and no Moon leader. -/
theorem science_victory_bounded_forward_witness :
    (0 : ℚ) ≤ moon_progress_gain NationMetrics.default 0 0 ∧
    (phaseIndex (science_victory_step none ScienceVictory.default)
        = phaseIndex ScienceVictory.default ∨
      phaseIndex (science_victory_step none ScienceVictory.default)
        = phaseIndex ScienceVictory.default + 1) :=
  ⟨by norm_num [moon_progress_gain, era_bonus, NationMetrics.default, clampQ,
      min_def, max_def],
   (science_victory_bounded_forward NationMetrics.default 0 0 100 0 none
      ScienceVictory.default (by norm_num)
      (by norm_num [moon_progress_gain, era_bonus, NationMetrics.default, clampQ,
        min_def, max_def])
      (fun _ => rfl) (by intro h; simp [ScienceVictory.default] at h)
      (by norm_num [ScienceVictory.default]) (by norm_num [ScienceVictory.default])
      (by norm_num [ScienceVictory.default]) (by norm_num [ScienceVictory.default])
      (by norm_num [ScienceVictory.default]) (by norm_num [ScienceVictory.default])
      (by norm_num [ScienceVictory.default]) (by norm_num [ScienceVictory.default])
      (by norm_num [ScienceVictory.default])).2.2.2.2⟩

/-- Witness for `resolveBattle_nuclear_requires_arsenal`: a default pair with a
nuclear-armed winner and an escalation draw of `true`. -/
theorem resolveBattle_nuclear_requires_arsenal_witness :
    (resolveBattle 0 ⟨7000, true, 5, false⟩
        { NationMetrics.default with weapon_tier := WeaponTier.NuclearArsenal }
        NationMetrics.default NationCivState.default).nuclear = true ∧
    ({ NationMetrics.default with weapon_tier := WeaponTier.NuclearArsenal }.weapon_tier
        = WeaponTier.NuclearArsenal ∨
      NationMetrics.default.weapon_tier = WeaponTier.NuclearArsenal) :=
  ⟨by decide, resolveBattle_nuclear_requires_arsenal 0 ⟨7000, true, 5, false⟩
    { NationMetrics.default with weapon_tier := WeaponTier.NuclearArsenal }
    NationMetrics.default NationCivState.default (by decide)⟩

/-- Witness for `resolveBattle_casualties_territory`: two default nations at
tick 0 (both have territory 33.33, so both hypotheses hold). -/
theorem resolveBattle_casualties_territory_witness :
    (0 ≤ NationMetrics.default.territory ∧
      (1 : ℚ)/2 ≤ NationMetrics.default.territory) ∧
    (resolveBattle 0 ⟨7000, false, 0, false⟩ NationMetrics.default NationMetrics.default
        NationCivState.default).winner.territory = NationMetrics.default.territory + 1/2 ∧
    (resolveBattle 0 ⟨7000, false, 0, false⟩ NationMetrics.default NationMetrics.default
        NationCivState.default).loser.territory = NationMetrics.default.territory - 1/2 :=
  ⟨⟨by norm_num [NationMetrics.default], by norm_num [NationMetrics.default]⟩,
    (resolveBattle_casualties_territory 0 ⟨7000, false, 0, false⟩ NationMetrics.default
      NationMetrics.default NationCivState.default (by norm_num [NationMetrics.default]) (by norm_num [NationMetrics.default])).2.1,
    (resolveBattle_casualties_territory 0 ⟨7000, false, 0, false⟩ NationMetrics.default
      NationMetrics.default NationCivState.default (by norm_num [NationMetrics.default]) (by norm_num [NationMetrics.default])).2.2.1⟩


/-- C6: `with_observer` accepts the invalid configuration (grid radius 0,
years-per-tick −1): it returns a world — a degenerate single-hex grid with
the negative timescale stored — instead of failing fast with an error. -/
theorem with_observer_accepts_invalid_config :
    (SimulationWorld.with_observer ⟨1000, 0, -1⟩).grid_coords = [(0, 0)] ∧
    (SimulationWorld.with_observer ⟨1000, 0, -1⟩).timescale_years_per_tick = -1 :=
  ⟨rfl, rfl⟩

lemma pushAll_events_drop {α : Type} (c : ℕ) (hc : 0 < c) :
    ∀ (l : List α) (log : WorldEventLog α), log.capacity = c →
      log.events.length ≤ c →
      (log.pushAll l).events =
        (log.events ++ l).drop (log.events.length + l.length - c) := by
  intro l
  induction l with
  | nil =>
    intro log hcap hlen
    have h0 : log.events.length - c = 0 := by omega
    simp [WorldEventLog.pushAll, h0]
  | cons e l ih =>
    intro log hcap hlen
    have hstep : WorldEventLog.pushAll log (e :: l) =
        WorldEventLog.pushAll (log.push e) l := rfl
    rw [hstep]
    by_cases hfull : log.events.length = c
    · have hcond : log.events.length = log.capacity := by rw [hcap]; exact hfull
      have hpush : (log.push e).events = log.events.tail ++ [e] := by
        unfold WorldEventLog.push
        rw [if_pos hcond]
      have hpushcap : (log.push e).capacity = c := by
        unfold WorldEventLog.push
        rw [if_pos hcond]
        exact hcap
      obtain ⟨h0, t0, hev⟩ : ∃ h0 t0, log.events = h0 :: t0 := by
        cases hevc : log.events with
        | nil =>
          exfalso
          rw [hevc] at hfull
          simp at hfull
          omega
        | cons a as => exact ⟨a, as, rfl⟩
      have ht0 : t0.length + 1 = c := by
        rw [hev] at hfull
        simpa using hfull
      have hlenpush : (log.push e).events.length = c := by
        rw [hpush, hev]
        simpa using ht0
      rw [ih (log.push e) hpushcap (le_of_eq hlenpush)]
      rw [hlenpush, hpush, hev]
      have i1 : c + l.length - c = l.length := by omega
      have i2 : (h0 :: t0).length + (e :: l).length - c = l.length + 1 := by
        simp only [List.length_cons]
        omega
      rw [i1, i2]
      rw [List.cons_append, List.drop_succ_cons, List.append_assoc]
      rfl
    · have hcond : ¬ log.events.length = log.capacity := by rw [hcap]; exact hfull
      have hpush : (log.push e).events = log.events ++ [e] := by
        unfold WorldEventLog.push
        rw [if_neg hcond]
      have hpushcap : (log.push e).capacity = c := by
        unfold WorldEventLog.push
        rw [if_neg hcond]
        exact hcap
      have hlen' : (log.push e).events.length ≤ c := by
        rw [hpush]
        simp only [List.length_append, List.length_cons, List.length_nil]
        omega
      rw [ih (log.push e) hpushcap hlen', hpush]
      have i : (log.events ++ [e]).length + l.length - c =
          log.events.length + (e :: l).length - c := by
        simp only [List.length_append, List.length_cons, List.length_nil]
        omega
      rw [i, List.append_assoc]
      rfl

/-- C7: from an empty log of positive capacity `c`, after any push sequence
the stored events are the last `min (number of pushes) c` pushed, in order —
the length never exceeds the capacity — and pushing exactly c+1 events
leaves precisely the last c: the first event is evicted (and, when the
events are distinct, is no longer present at all). -/
theorem event_log_capacity_fifo {α : Type} (c : ℕ) (hc : 0 < c) (l : List α) :
    ((WorldEventLog.new α c).pushAll l).events = l.drop (l.length - c) ∧
    ((WorldEventLog.new α c).pushAll l).events.length = min l.length c ∧
    (∀ x xs, l = x :: xs → l.length = c + 1 →
      ((WorldEventLog.new α c).pushAll l).events = xs ∧
      (l.Nodup → x ∉ ((WorldEventLog.new α c).pushAll l).events)) := by
  have hmain := pushAll_events_drop c hc l (WorldEventLog.new α c) rfl
    (by simp [WorldEventLog.new])
  have hev : ((WorldEventLog.new α c).pushAll l).events = l.drop (l.length - c) := by
    simpa [WorldEventLog.new] using hmain
  refine ⟨hev, ?_, ?_⟩
  · rw [hev]
    simp only [List.length_drop]
    omega
  · intro x xs hx hlen
    have hdrop1 : l.length - c = 1 := by omega
    have hxs : ((WorldEventLog.new α c).pushAll l).events = xs := by
      rw [hev, hdrop1, hx, List.drop_one, List.tail_cons]
    refine ⟨hxs, ?_⟩
    intro hnd
    rw [hxs]
    rw [hx] at hnd
    exact (List.nodup_cons.mp hnd).1

/-- Witness for `event_log_capacity_fifo`: capacity 2, pushing the three
distinct events 10, 20, 30 keeps [20, 30] and evicts 10. -/
theorem event_log_capacity_fifo_witness :
    (0 < 2 ∧ ([10, 20, 30] : List ℕ).length = 2 + 1) ∧
    ((WorldEventLog.new ℕ 2).pushAll [10, 20, 30]).events = [20, 30] ∧
    (10 : ℕ) ∉ ((WorldEventLog.new ℕ 2).pushAll [10, 20, 30]).events := by
  have h := (event_log_capacity_fifo 2 (by norm_num) ([10, 20, 30] : List ℕ)).2.2
    10 [20, 30] rfl (by norm_num)
  exact ⟨⟨by norm_num, by norm_num⟩, h.1, h.1 ▸ h.2 (by norm_num)⟩

/-- C8: the AI transition is deterministic in (tick, entity id, the entity's
own components, world metadata, science flag): any two passes of
`ai_state_transition_system` over any entity lists containing the same
entity assign it the same next state — the pure value
`ai_next_state g draw tick e`, whose only random input is the draw at seed
`ai_seed tick e.id`, derived from tick and id alone. -/
theorem ai_transition_deterministic (g : AiGlobals) (draw : ℕ → ℚ → ℚ)
    (tick : ℕ) (e : AiEntity) (l₁ l₂ : List AiEntity)
    (h₁ : e ∈ l₁) (h₂ : e ∈ l₂) :
    (e.id, ai_next_state g draw tick e) ∈ ai_state_transition_system g draw tick l₁ ∧
    (e.id, ai_next_state g draw tick e) ∈ ai_state_transition_system g draw tick l₂ :=
  ⟨List.mem_map_of_mem _ h₁, List.mem_map_of_mem _ h₂⟩

/-- Witness for `ai_transition_deterministic`: one concrete entity appearing
in two different entity lists. -/
theorem ai_transition_deterministic_witness :
    ((⟨1, .Neutral, .Forest, ⟨0, 0, 0, 0⟩, .Idle⟩ : AiEntity).id,
      ai_next_state ⟨fun _ _ => 1, fun _ _ => 1, "한낮", "평온", false⟩
        (fun _ total => total / 2) 3 ⟨1, .Neutral, .Forest, ⟨0, 0, 0, 0⟩, .Idle⟩) ∈
      ai_state_transition_system ⟨fun _ _ => 1, fun _ _ => 1, "한낮", "평온", false⟩
        (fun _ total => total / 2) 3
        [⟨1, .Neutral, .Forest, ⟨0, 0, 0, 0⟩, .Idle⟩] ∧
    ((⟨1, .Neutral, .Forest, ⟨0, 0, 0, 0⟩, .Idle⟩ : AiEntity).id,
      ai_next_state ⟨fun _ _ => 1, fun _ _ => 1, "한낮", "평온", false⟩
        (fun _ total => total / 2) 3 ⟨1, .Neutral, .Forest, ⟨0, 0, 0, 0⟩, .Idle⟩) ∈
      ai_state_transition_system ⟨fun _ _ => 1, fun _ _ => 1, "한낮", "평온", false⟩
        (fun _ total => total / 2) 3
        [⟨2, .BanditClans, .Market, ⟨1, 0, 0, 1⟩, .Hunt⟩,
         ⟨1, .Neutral, .Forest, ⟨0, 0, 0, 0⟩, .Idle⟩] :=
  ai_transition_deterministic _ _ 3 _ _ _
    (List.mem_singleton_self _)
    (List.mem_cons_of_mem _ (List.mem_singleton_self _))

lemma sanction_update_mem (relations : List ((Nation × Nation) × ℚ))
    (sanctions : List (Nation × Nation)) (p : Nation × Nation)
    (hp : p ∈ sanctions) : p ∈ sanction_update relations sanctions := by
  induction relations generalizing sanctions with
  | nil => exact hp
  | cons r rs ih =>
    simp only [sanction_update, List.foldl_cons] at ih ⊢
    by_cases hc : r.2 < -45 ∧ r.1 ∉ sanctions
    · rw [if_pos hc]
      exact ih _ (List.mem_append_left _ hp)
    · rw [if_neg hc]
      exact ih _ hp

lemma sanction_update_count_le_one
    (relations : List ((Nation × Nation) × ℚ))
    (sanctions : List (Nation × Nation)) (p : Nation × Nation)
    (h : List.count p sanctions ≤ 1) :
    List.count p (sanction_update relations sanctions) ≤ 1 := by
  induction relations generalizing sanctions with
  | nil => exact h
  | cons r rs ih =>
    simp only [sanction_update, List.foldl_cons] at ih ⊢
    by_cases hc : r.2 < -45 ∧ r.1 ∉ sanctions
    · rw [if_pos hc]
      apply ih
      by_cases hpr : r.1 = p
      · have hzero : List.count p sanctions = 0 :=
          List.count_eq_zero.mpr (hpr ▸ hc.2)
        simp [List.count_append, hzero, hpr]
      · have hzero : List.count p [r.1] = 0 :=
          List.count_eq_zero.mpr (by
            simp only [List.mem_singleton]
            exact fun hh => hpr hh.symm)
        simpa [List.count_append, hzero] using h
    · rw [if_neg hc]
      exact ih _ h

lemma sanction_update_inserts
    (relations : List ((Nation × Nation) × ℚ))
    (sanctions : List (Nation × Nation)) (p : Nation × Nation) (sc : ℚ)
    (hmem : (p, sc) ∈ relations) (hsc : sc < -45) :
    p ∈ sanction_update relations sanctions := by
  induction relations generalizing sanctions with
  | nil => cases hmem
  | cons r rs ih =>
    simp only [sanction_update, List.foldl_cons] at ih ⊢
    rcases List.mem_cons.mp hmem with heq | hmem'
    · have hr1 : r.1 = p := by rw [← heq]
      have hr2 : r.2 = sc := by rw [← heq]
      by_cases hin : p ∈ sanctions
      · by_cases hc : r.2 < -45 ∧ r.1 ∉ sanctions
        · rw [if_pos hc]
          exact sanction_update_mem rs _ p (List.mem_append_left _ hin)
        · rw [if_neg hc]
          exact sanction_update_mem rs _ p hin
      · rw [if_pos ⟨hr2 ▸ hsc, hr1 ▸ hin⟩]
        exact sanction_update_mem rs _ p
          (List.mem_append_right _ (hr1 ▸ List.mem_singleton_self p))
    · by_cases hc : r.2 < -45 ∧ r.1 ∉ sanctions
      · rw [if_pos hc]
        exact ih _ hmem'
      · rw [if_neg hc]
        exact ih _ hmem'

/-- C9: sanction insertion is idempotent: when the ordered pair appears in
the relations map with score below −45 and the sanction list currently holds
at most one copy of it (in particular zero, on the first offending tick),
exactly one copy is present afterwards, on this and every later tick. -/
theorem sanction_insertion_idempotent
    (relations : List ((Nation × Nation) × ℚ))
    (sanctions : List (Nation × Nation)) (p : Nation × Nation) (sc : ℚ)
    (hmem : (p, sc) ∈ relations) (hsc : sc < -45)
    (hcount : List.count p sanctions ≤ 1) :
    List.count p (sanction_update relations sanctions) = 1 := by
  have hle := sanction_update_count_le_one relations sanctions p hcount
  have hpos : p ∈ sanction_update relations sanctions :=
    sanction_update_inserts relations sanctions p sc hmem hsc
  have hne : List.count p (sanction_update relations sanctions) ≠ 0 := by
    intro h0
    exact (List.count_eq_zero.mp h0) hpos
  omega

/-- Witness for `sanction_insertion_idempotent`: the pair (Tera, Sora) at
score −50 starting from an empty sanction list. -/
theorem sanction_insertion_idempotent_witness :
    (((Nation.Tera, Nation.Sora), (-50 : ℚ)) ∈
        [((Nation.Tera, Nation.Sora), (-50 : ℚ))] ∧
      (-50 : ℚ) < -45 ∧
      List.count (Nation.Tera, Nation.Sora) ([] : List (Nation × Nation)) ≤ 1) ∧
    List.count (Nation.Tera, Nation.Sora)
      (sanction_update [((Nation.Tera, Nation.Sora), (-50 : ℚ))] []) = 1 :=
  ⟨⟨List.mem_singleton_self _, by norm_num, by simp⟩,
    sanction_insertion_idempotent _ _ _ (-50) (List.mem_singleton_self _)
      (by norm_num) (by simp)⟩

lemma applyBioStep_ge (b : ℚ) (s : BioStep) : 5 ≤ applyBioStep b s := by
  cases s with
  | climate c sf f r n =>
    unfold applyBioStep climate_biodiversity_step clampQ
    dsimp only
    exact le_min (le_max_right _ _) (by norm_num)
  | extinction sev =>
    unfold applyBioStep extinction_biodiversity_reset
    exact le_min (le_max_right _ _) (by norm_num)

lemma bioReach_ge (steps : List BioStep) : 5 ≤ bioReach steps := by
  have hfold : ∀ (ss : List BioStep) (b : ℚ), 5 ≤ b →
      5 ≤ ss.foldl applyBioStep b := by
    intro ss
    induction ss with
    | nil => intro b hb; exact hb
    | cons s ss ih => intro b _; exact ih _ (applyBioStep_ge b s)
  exact hfold _ 85 (by norm_num)

/-- C10: biodiversity is at least 5 in every state reachable through its two
writers from the initial 85, so the `biodiversity < 1.0` disjunct of the
extinction trigger can never fire: under the invariant, the trigger is
equivalent to climate risk above 95 or the cosmic-age condition. -/
theorem biodiversity_floor_trigger_reduces (steps : List BioStep)
    (r b a : ℚ) (hb : 5 ≤ b) :
    5 ≤ bioReach steps ∧
    (extinction_trigger r b a = true ↔
      (95 < r ∨ ((5000000000 : ℚ) < a ∧ toU64 a % 1000000000 = 0))) := by
  refine ⟨bioReach_ge steps, ?_⟩
  unfold extinction_trigger
  simp only [Bool.or_eq_true, Bool.and_eq_true, decide_eq_true_eq]
  constructor
  · rintro ((h | h) | h)
    · exact Or.inl h
    · linarith
    · exact Or.inr h
  · rintro (h | h)
    · exact Or.inl (Or.inl h)
    · exact Or.inr h

/-- Witness for `biodiversity_floor_trigger_reduces`: the empty writer
sequence and the initial climate state (biodiversity 85, risk 96). -/
theorem biodiversity_floor_trigger_reduces_witness :
    (5 : ℚ) ≤ 85 ∧ 5 ≤ bioReach [] ∧
    (extinction_trigger 96 85 0 = true ↔
      ((95 : ℚ) < 96 ∨ ((5000000000 : ℚ) < 0 ∧ toU64 0 % 1000000000 = 0))) :=
  ⟨by norm_num,
    (biodiversity_floor_trigger_reduces [] 96 85 0 (by norm_num)).1,
    (biodiversity_floor_trigger_reduces [] 96 85 0 (by norm_num)).2⟩

end CivSim
